import Mathlib

/-!
Shallow embedding of the qiming-3d-classroom sources (src/main.js,
src/classroom.js) for spec verification.

Conventions of the embedding:
* JavaScript numbers are idealised as rationals; decimal literals of the
  source are written as exact fractions (1.3 = 13/10, ...).
* Mutation of scene-graph / bone objects is embedded as explicit state
  passing: each pose function returns the updated avatar value.
* The humanoid bone map of a VRM avatar (addressed through
  humanoid.getNormalizedBoneNode) is an association list from bone names
  to bone nodes; a lookup that finds no node models the JS null result.
* Library internals (three.js, @pixiv/three-vrm) are external
  dependencies: calls into them that the claims do not depend on
  (VRMUtils.rotateVRM0, texture filtering, vrm.update, composer.render)
  are not modelled, and OrbitControls.update is abstracted as an
  arbitrary state-transformation parameter threaded where main.js calls
  it.
-/

namespace Qiming

/-- Euler rotation / position triple of a scene node (three.js Vector3 /
Euler, idealised over the rationals). -/
structure Vec3 where
  x : ℚ
  y : ℚ
  z : ℚ
deriving DecidableEq, Repr

/-- One normalized humanoid bone node: its local Euler rotation and its
local position, the two fields the pose code touches. -/
structure Bone where
  rotation : Vec3
  position : Vec3
deriving DecidableEq, Repr

/-- The humanoid bone map: bone name to bone node, as addressed by
vrm.humanoid.getNormalizedBoneNode(name). -/
abbrev Humanoid := List (String × Bone)

/-- Lookup of vrm.humanoid.getNormalizedBoneNode(name): the first entry
with the given name, or none (JS null) when the avatar lacks the bone. -/
def getNode : Humanoid → String → Option Bone
  | [], _ => none
  | (k, b) :: t, n => if k = n then some b else getNode t n

/-- Embedding of the JS pattern: look a bone up and, only when present,
mutate it (`const b = get(name); if (b) ...`). When the bone is absent
the map is unchanged, i.e. the assignment is skipped. -/
def setNode : Humanoid → String → (Bone → Bone) → Humanoid
  | [], _, _ => []
  | (k, b) :: t, n, f =>
    if k = n then (k, f b) :: setNode t n f else (k, b) :: setNode t n f

/-- Assignment node.rotation.x = q. -/
def setRotX (q : ℚ) (b : Bone) : Bone :=
  { b with rotation := { b.rotation with x := q } }

/-- Assignment node.rotation.y = q. -/
def setRotY (q : ℚ) (b : Bone) : Bone :=
  { b with rotation := { b.rotation with y := q } }

/-- Assignment node.rotation.z = q. -/
def setRotZ (q : ℚ) (b : Bone) : Bone :=
  { b with rotation := { b.rotation with z := q } }

/-- Assignment node.position.y = q. -/
def setPosY (q : ℚ) (b : Bone) : Bone :=
  { b with position := { b.position with y := q } }

/-- A loaded VRM avatar, restricted to the state main.js reads or
writes: the version tag vrm.meta?.metaVersion (none when meta or the
tag is absent), the optional humanoid bone map, and the avatar's scene
root (identified by an id, with the position / rotation.y that loadVRM
assigns). -/
structure VRM where
  metaVersion : Option String
  humanoid : Option Humanoid
  sceneId : Nat
  scenePos : Vec3
  sceneRotY : ℚ
deriving DecidableEq, Repr

/-- Body of setBasePose after the null checks (src/main.js lines
118-134): sign is +1 exactly when the version tag is the string "0",
and the four arm bones get sign-multiplied rotation.z values. -/
def setBasePoseH (mv : Option String) (h : Humanoid) : Humanoid :=
  let sign : ℚ := if mv = some "0" then 1 else -1
  let h := setNode h "leftUpperArm" (setRotZ (sign * (13/10)))
  let h := setNode h "rightUpperArm" (setRotZ (sign * (-(13/10))))
  let h := setNode h "leftLowerArm" (setRotZ (sign * (2/10)))
  let h := setNode h "rightLowerArm" (setRotZ (sign * (-(2/10))))
  h

/-- setBasePose on a non-null vrm: if the humanoid is absent the
function returns with no change, otherwise the arm rotations are set. -/
def setBasePoseV (vrm : VRM) : VRM :=
  match vrm.humanoid with
  | none => vrm
  | some h => { vrm with humanoid := some (setBasePoseH vrm.metaVersion h) }

/-- setBasePose (src/main.js lines 115-135), including the
`if (!vrm || !vrm.humanoid) return` guard: none models a null vrm. -/
def setBasePose : Option VRM → Option VRM
  | none => none
  | some vrm => some (setBasePoseV vrm)

/-- Body of setSittingPose after the null checks (src/main.js lines
145-181): hips position.y is reset to 0 (no sign involved), and the leg
and arm bones get sign-multiplied rotation values; armAngle is the
upper-arm lift parameter. -/
def setSittingPoseH (mv : Option String) (armAngle : ℚ) (h : Humanoid) : Humanoid :=
  let sign : ℚ := if mv = some "0" then 1 else -1
  let h := setNode h "hips" (setPosY 0)
  let h := setNode h "leftUpperLeg" (setRotX (sign * (5/4)))
  let h := setNode h "rightUpperLeg" (setRotX (sign * (5/4)))
  let h := setNode h "leftLowerLeg" (setRotX (sign * (-(29/20))))
  let h := setNode h "rightLowerLeg" (setRotX (sign * (-(29/20))))
  let h := setNode h "leftUpperArm" (fun b => setRotX (sign * armAngle) (setRotZ (sign * 1) b))
  let h := setNode h "rightUpperArm" (fun b => setRotX (sign * armAngle) (setRotZ (sign * (-1)) b))
  let h := setNode h "leftLowerArm" (setRotY (sign * (-(3/10))))
  let h := setNode h "rightLowerArm" (setRotY (sign * (3/10)))
  h

/-- setSittingPose on a non-null vrm: no humanoid means no change. -/
def setSittingPoseV (vrm : VRM) (armAngle : ℚ) : VRM :=
  match vrm.humanoid with
  | none => vrm
  | some h => { vrm with humanoid := some (setSittingPoseH vrm.metaVersion armAngle h) }

/-- setSittingPose (src/main.js lines 142-182) with its null guard. -/
def setSittingPose : Option VRM → ℚ → Option VRM
  | none, _ => none
  | some vrm, armAngle => some (setSittingPoseV vrm armAngle)

/-- Body of applyIdleAnimation after the null checks (src/main.js lines
336-347): neck.rotation.x, head.rotation.y, head.rotation.z and
spine.rotation.z are driven by sines of scaled time. Math.sin is a
float library primitive, abstracted as the parameter sin. -/
def applyIdleAnimationH (sin : ℚ → ℚ) (time : ℚ) (h : Humanoid) : Humanoid :=
  let h := setNode h "neck" (setRotX (sin (time * (8/10)) * (2/100) + 2/100))
  let h := setNode h "head" (fun b =>
    setRotZ (sin (time * (3/10)) * (5/100)) (setRotY (sin (time * (4/10)) * (1/10)) b))
  let h := setNode h "spine" (setRotZ (sin (time * (2/10)) * (2/100)))
  h

/-- applyIdleAnimation on a non-null vrm: no humanoid means no change. -/
def applyIdleAnimationV (sin : ℚ → ℚ) (vrm : VRM) (time : ℚ) : VRM :=
  match vrm.humanoid with
  | none => vrm
  | some h => { vrm with humanoid := some (applyIdleAnimationH sin time h) }

/-- applyIdleAnimation (src/main.js lines 333-348) with its null
guard. -/
def applyIdleAnimation (sin : ℚ → ℚ) : Option VRM → ℚ → Option VRM
  | none, _ => none
  | some vrm, time => some (applyIdleAnimationV sin vrm time)

/-- Bone lookup through an optional avatar: the bone node reached from
a possibly-null vrm with a possibly-missing humanoid. -/
def boneOf (v : Option VRM) (name : String) : Option Bone :=
  v.bind (fun vrm => vrm.humanoid.bind (fun h => getNode h name))

/-! Module-level load state of src/main.js: the scene graph (we track
the scene roots of loaded avatars by id), the teacherVRM reference, the
studentVRMs array, the set of disposed scene roots, the loads issued to
the asynchronous GLTFLoader that have not yet completed, and the
console log. -/

/-- Console messages the load path emits, by kind. -/
inductive LogEv where
  | loading (url : String) (isTeacher : Bool)
  | loaded (url : String)
  | loadError
deriving DecidableEq, Repr

/-- Arguments of one loadVRM call, captured by the closure that
loader.load registers. -/
structure LoadReq where
  url : String
  pos : Vec3
  rotY : ℚ
  isTeacher : Bool
deriving DecidableEq, Repr

/-- Module state of src/main.js touched by the load path. -/
structure World where
  sceneIds : List Nat
  teacherVRM : Option VRM
  studentVRMs : List VRM
  disposed : List Nat
  pending : List LoadReq
  log : List LogEv
deriving DecidableEq, Repr

/-- Synchronous part of loadVRM (src/main.js lines 191-200): log, then
if this is a teacher load and a teacher is present, remove its scene
from the scene graph, dispose it and clear the reference; finally issue
the asynchronous fetch (loader.load), which becomes a pending request. -/
def loadVRM (w : World) (url : String) (pos : Vec3) (rotY : ℚ) (isTeacher : Bool) : World :=
  let w := { w with log := w.log ++ [LogEv.loading url isTeacher] }
  let w :=
    if isTeacher then
      match w.teacherVRM with
      | some t =>
        { w with sceneIds := w.sceneIds.erase t.sceneId,
                 disposed := w.disposed ++ [t.sceneId],
                 teacherVRM := none }
      | none => w
    else w
  { w with pending := w.pending ++ [⟨url, pos, rotY, isTeacher⟩] }

/-- The scene-transform assignments of the load callback:
vrm.scene.position.copy(pos) and vrm.scene.rotation.y = rotationY.
VRMUtils.rotateVRM0 and the texture-filter traversal are library
effects on state outside this model. -/
def vrmWithTransform (vrm : VRM) (req : LoadReq) : VRM :=
  { vrm with scenePos := req.pos, sceneRotY := req.rotY }

/-- Success callback of loader.load (src/main.js lines 202-239): store
the avatar in teacherVRM or push it onto studentVRMs, add its scene to
the scene graph, apply the transform, then author the pose exactly
once: setBasePose for the teacher, setSittingPose with a
version-dependent armAngle (1.2 for VRM 0.x, 1.30 otherwise) for a
student. -/
def loadOnSuccess (w : World) (req : LoadReq) (vrm : VRM) : World :=
  let isV0 := vrm.metaVersion = some "0"
  let vrm1 := vrmWithTransform vrm req
  let vrm2 :=
    if req.isTeacher then setBasePoseV vrm1
    else setSittingPoseV vrm1 (if isV0 then 6/5 else 13/10)
  if req.isTeacher then
    { w with teacherVRM := some vrm2,
             sceneIds := w.sceneIds ++ [vrm2.sceneId],
             log := w.log ++ [LogEv.loaded req.url] }
  else
    { w with studentVRMs := w.studentVRMs ++ [vrm2],
             sceneIds := w.sceneIds ++ [vrm2.sceneId],
             log := w.log ++ [LogEv.loaded req.url] }

/-- Error callback of loader.load (src/main.js line 241): console.error
only, no other effect and no retry. -/
def loadOnError (w : World) : World :=
  { w with log := w.log ++ [LogEv.loadError] }

/-- Events of the load path: a loadVRM call, or the completion of the
i-th pending fetch, delivering a parsed avatar on success (some) or an
error (none). Completions may arrive in any order: loader.load is
asynchronous. -/
inductive Ev where
  | request (url : String) (pos : Vec3) (rotY : ℚ) (isTeacher : Bool)
  | complete (i : Nat) (res : Option VRM)

/-- One event of the load path applied to the module state. -/
def step (w : World) : Ev → World
  | .request u p r t => loadVRM w u p r t
  | .complete i res =>
    match w.pending.get? i with
    | none => w
    | some req =>
      let w1 := { w with pending := w.pending.eraseIdx i }
      match res with
      | some vrm => loadOnSuccess w1 req vrm
      | none => loadOnError w1

/-- A sequence of load-path events applied in order. -/
def run (w : World) (evs : List Ev) : World :=
  evs.foldl step w

/-! Camera and per-frame state. OrbitControls is an external library;
its internal state is an abstract type and each controls.update() call
is one application of an abstract transformation u on that internal
state paired with the camera-visible state. -/

/-- Camera-visible state the animate loop reads and writes: the camera
position and field of view, and the controls look-at target. -/
structure CamState where
  pos : Vec3
  fov : ℚ
  target : Vec3
deriving DecidableEq, Repr

/-- Locked seat coordinates, src/main.js line 60: (0, 1.2, -4.4). -/
def fixedCameraPos : Vec3 := ⟨0, 6/5, -(22/5)⟩

/-- THREE.MathUtils.lerp. -/
def lerp (x y t : ℚ) : ℚ := x + (y - x) * t

/-- THREE.Vector3.subVectors. -/
def subVectors (a b : Vec3) : Vec3 := ⟨a.x - b.x, a.y - b.y, a.z - b.z⟩

/-- THREE.Vector3.multiplyScalar. -/
def multiplyScalar (v : Vec3) (s : ℚ) : Vec3 := ⟨v.x * s, v.y * s, v.z * s⟩

/-- Squared Euclidean length of a vector. -/
def lengthSq (v : Vec3) : ℚ := v.x * v.x + v.y * v.y + v.z * v.z

/-- THREE.Vector3.distanceTo, with Math.sqrt abstracted. -/
def distanceTo (sqrt : ℚ → ℚ) (a b : Vec3) : ℚ := sqrt (lengthSq (subVectors a b))

/-- THREE.Vector3.normalize: division by the length, with the library's
zero-length guard (divideScalar by length-or-1). -/
def normalize (sqrt : ℚ → ℚ) (v : Vec3) : Vec3 :=
  let len := sqrt (lengthSq v)
  let len := if len = 0 then 1 else len
  multiplyScalar v (1 / len)

/-- Camera-control logic of one animate frame, src/main.js lines
357-390 (the code of this repository between the frame bookkeeping and
the final library controls.update() / composer.render()). The
parameter u is one OrbitControls.update() call on the abstract controls
internals paired with the camera state; sqrt abstracts Math.sqrt.
Unlocked: update controls, read off distance and direction to the
target, pin the position to the fixed seat, zoom by lerping the fov
toward 65 / (5 / dist), and re-derive the target from the rotated
direction. Locked: lerp the fov back to 65, pin the position, reset the
target. -/
def animateCamera {ι : Type} (u : ι × CamState → ι × CamState) (sqrt : ℚ → ℚ)
    (isLocked : Bool) (st : ι × CamState) : ι × CamState :=
  if !isLocked then
    let st := u st
    let i := st.1
    let s := st.2
    let dist := distanceTo sqrt s.pos s.target
    let offset := normalize sqrt (subVectors s.pos s.target)
    let s := { s with pos := fixedCameraPos }
    let defaultDist : ℚ := 5
    let zoomFactor := defaultDist / dist
    let targetFOV := 65 / zoomFactor
    let s := { s with fov := lerp s.fov targetFOV (1/10) }
    let s := { s with target := subVectors fixedCameraPos (multiplyScalar offset dist) }
    (i, s)
  else
    let i := st.1
    let s := st.2
    let s := { s with fov := lerp s.fov 65 (1/10) }
    let s := { s with pos := fixedCameraPos }
    let s := { s with target := ⟨0, 23/20, -10⟩ }
    (i, s)

/-- Per-frame state of the animate loop: abstract controls internals,
camera state, the view-lock flag, the avatars the frame animates, and
the number of pending requestAnimationFrame callbacks. -/
structure Frame (ι : Type) where
  ctl : ι
  cam : CamState
  isLocked : Bool
  teacherVRM : Option VRM
  studentVRMs : List VRM
  raf : Nat

/-- One invocation of animate (src/main.js lines 350-406): schedule
exactly one requestAnimationFrame(animate), run the camera-control
logic, make the final library controls.update() call, then apply the
idle animation to the teacher (guarded by the if (teacherVRM) check)
and to every student. vrm.update(deltaTime) and composer.render() are
library effects outside this state. -/
def animateFrame {ι : Type} (u : ι × CamState → ι × CamState) (sqrt sin : ℚ → ℚ)
    (f : Frame ι) (time : ℚ) : Frame ι :=
  let f := { f with raf := f.raf + 1 }
  let st := animateCamera u sqrt f.isLocked (f.ctl, f.cam)
  let st := u st
  let f := { f with ctl := st.1, cam := st.2 }
  let f :=
    match f.teacherVRM with
    | some t => { f with teacherVRM := some (applyIdleAnimationV sin t time) }
    | none => f
  { f with studentVRMs := f.studentVRMs.map (fun v => applyIdleAnimationV sin v time) }

/-- Browser event loop firing one animation callback: when one is
outstanding it is consumed and animate runs; with none outstanding
nothing happens. -/
def fireFrame {ι : Type} (u : ι × CamState → ι × CamState) (sqrt sin : ℚ → ℚ)
    (f : Frame ι) (time : ℚ) : Frame ι :=
  if f.raf = 0 then f else animateFrame u sqrt sin { f with raf := f.raf - 1 } time

/-- State after n fired frames, with times n the clock reading of the
n-th frame. -/
def runFrames {ι : Type} (u : ι × CamState → ι × CamState) (sqrt sin : ℚ → ℚ)
    (times : Nat → ℚ) (f : Frame ι) : Nat → Frame ι
  | 0 => f
  | n + 1 => fireFrame u sqrt sin (runFrames u sqrt sin times f n) (times n)

/-! Classroom construction (src/classroom.js). -/

/-- Desk/chair grid of createDesksAndChairs (src/classroom.js lines
450-469): the (x, z) positions, in loop order (columns outer, rows
inner), at which createSingleDesk places one identical desk/chair
group. The mesh and material construction inside createSingleDesk is
rendering-library state outside this model; positions depend only on
the room depth D and the loop indices. -/
def createDesksAndChairs (D : ℚ) : List (ℚ × ℚ) :=
  let columns : Nat := 3
  let rows : Nat := 4
  let spacingX : ℚ := 5/2
  let spacingZ : ℚ := 8/5
  let startX : ℚ := -((columns : ℚ) - 1) * spacingX / 2
  let startZ : ℚ := -D + 7/2
  (List.range columns).flatMap (fun col =>
    (List.range rows).map (fun row =>
      (startX + (col : ℚ) * spacingX, startZ + (row : ℚ) * spacingZ)))

/-! Post-processing chain (src/main.js lines 282-313). -/

/-- Kinds of passes the composer is built from. -/
inductive PassKind where
  | renderPass
  | saoPass
  | bloomPass
  | smaaPass
  | outputPass
deriving DecidableEq, Repr

/-- EffectComposer, reduced to its ordered pass list. -/
structure Composer where
  passes : List PassKind
deriving DecidableEq, Repr

/-- composer.addPass appends to the pass list. -/
def addPass (c : Composer) (p : PassKind) : Composer :=
  { passes := c.passes ++ [p] }

/-- The composer as built by src/main.js lines 282-313: RenderPass,
then SAOPass, then UnrealBloomPass, then SMAAPass, then OutputPass, in
call order. -/
def composer : Composer :=
  let c : Composer := { passes := [] }
  let c := addPass c PassKind.renderPass
  let c := addPass c PassKind.saoPass
  let c := addPass c PassKind.bloomPass
  let c := addPass c PassKind.smaaPass
  let c := addPass c PassKind.outputPass
  c

/-! Helper lemmas on the bone map. -/

/-- Updating a bone changes exactly that name's node, by f. -/
theorem getNode_setNode_same (h : Humanoid) (n : String) (f : Bone → Bone) :
    getNode (setNode h n f) n = (getNode h n).map f := by
  induction h with
  | nil => rfl
  | cons kb t ih =>
    obtain ⟨k, b⟩ := kb
    by_cases hk : k = n <;> simp [getNode, setNode, hk, ih]

/-- Updating a bone leaves every other name's node unchanged. -/
theorem getNode_setNode_other (h : Humanoid) (n m : String) (f : Bone → Bone)
    (hne : m ≠ n) : getNode (setNode h n f) m = getNode h m := by
  induction h with
  | nil => rfl
  | cons kb t ih =>
    obtain ⟨k, b⟩ := kb
    by_cases hk : k = n
    · subst hk
      simp [getNode, setNode, Ne.symm hne, ih]
    · by_cases hm : k = m <;> simp [getNode, setNode, hk, hm, hne, ih]

/-- A lookup that returns no node is skipped: the map is unchanged. -/
theorem setNode_absent (h : Humanoid) (n : String) (f : Bone → Bone)
    (habs : getNode h n = none) : setNode h n f = h := by
  induction h with
  | nil => rfl
  | cons kb t ih =>
    obtain ⟨k, b⟩ := kb
    by_cases hk : k = n
    · simp [getNode, hk] at habs
    · simp [getNode, hk] at habs
      simp [setNode, hk, ih habs]

/-- Pointwise evaluation of the base-pose body: exactly the four arm
bones change, each rotation.z set to a sign-multiplied constant, the
sign determined solely by the version tag. -/
theorem getNode_setBasePoseH (mv : Option String) (h : Humanoid) (name : String) :
    getNode (setBasePoseH mv h) name =
      (if name = "leftUpperArm" then
        (getNode h name).map (setRotZ ((if mv = some "0" then (1:ℚ) else -1) * (13/10)))
      else if name = "rightUpperArm" then
        (getNode h name).map (setRotZ ((if mv = some "0" then (1:ℚ) else -1) * (-(13/10))))
      else if name = "leftLowerArm" then
        (getNode h name).map (setRotZ ((if mv = some "0" then (1:ℚ) else -1) * (2/10)))
      else if name = "rightLowerArm" then
        (getNode h name).map (setRotZ ((if mv = some "0" then (1:ℚ) else -1) * (-(2/10))))
      else getNode h name) := by
  simp only [setBasePoseH]
  by_cases e1 : name = "leftUpperArm"
  · subst e1; simp [getNode_setNode_same, getNode_setNode_other]
  by_cases e2 : name = "rightUpperArm"
  · subst e2; simp [getNode_setNode_same, getNode_setNode_other]
  by_cases e3 : name = "leftLowerArm"
  · subst e3; simp [getNode_setNode_same, getNode_setNode_other]
  by_cases e4 : name = "rightLowerArm"
  · subst e4; simp [getNode_setNode_same, getNode_setNode_other]
  simp [getNode_setNode_other _ _ _ _ e1, getNode_setNode_other _ _ _ _ e2,
    getNode_setNode_other _ _ _ _ e3, getNode_setNode_other _ _ _ _ e4, e1, e2, e3, e4]

/-- Pointwise evaluation of the sitting-pose body: hips gets its
position.y reset to 0 (its rotation untouched, no sign involved), the
leg and arm bones get sign-multiplied rotations, and every other bone
is untouched. -/
theorem getNode_setSittingPoseH (mv : Option String) (a : ℚ) (h : Humanoid) (name : String) :
    getNode (setSittingPoseH mv a h) name =
      (if name = "hips" then (getNode h name).map (setPosY 0)
      else if name = "leftUpperLeg" then
        (getNode h name).map (setRotX ((if mv = some "0" then (1:ℚ) else -1) * (5/4)))
      else if name = "rightUpperLeg" then
        (getNode h name).map (setRotX ((if mv = some "0" then (1:ℚ) else -1) * (5/4)))
      else if name = "leftLowerLeg" then
        (getNode h name).map (setRotX ((if mv = some "0" then (1:ℚ) else -1) * (-(29/20))))
      else if name = "rightLowerLeg" then
        (getNode h name).map (setRotX ((if mv = some "0" then (1:ℚ) else -1) * (-(29/20))))
      else if name = "leftUpperArm" then
        (getNode h name).map (fun b =>
          setRotX ((if mv = some "0" then (1:ℚ) else -1) * a)
            (setRotZ ((if mv = some "0" then (1:ℚ) else -1) * 1) b))
      else if name = "rightUpperArm" then
        (getNode h name).map (fun b =>
          setRotX ((if mv = some "0" then (1:ℚ) else -1) * a)
            (setRotZ ((if mv = some "0" then (1:ℚ) else -1) * (-1)) b))
      else if name = "leftLowerArm" then
        (getNode h name).map (setRotY ((if mv = some "0" then (1:ℚ) else -1) * (-(3/10))))
      else if name = "rightLowerArm" then
        (getNode h name).map (setRotY ((if mv = some "0" then (1:ℚ) else -1) * (3/10)))
      else getNode h name) := by
  simp only [setSittingPoseH]
  by_cases e1 : name = "hips"
  · subst e1; simp [getNode_setNode_same, getNode_setNode_other]
  by_cases e2 : name = "leftUpperLeg"
  · subst e2; simp [getNode_setNode_same, getNode_setNode_other]
  by_cases e3 : name = "rightUpperLeg"
  · subst e3; simp [getNode_setNode_same, getNode_setNode_other]
  by_cases e4 : name = "leftLowerLeg"
  · subst e4; simp [getNode_setNode_same, getNode_setNode_other]
  by_cases e5 : name = "rightLowerLeg"
  · subst e5; simp [getNode_setNode_same, getNode_setNode_other]
  by_cases e6 : name = "leftUpperArm"
  · subst e6; simp [getNode_setNode_same, getNode_setNode_other]
  by_cases e7 : name = "rightUpperArm"
  · subst e7; simp [getNode_setNode_same, getNode_setNode_other]
  by_cases e8 : name = "leftLowerArm"
  · subst e8; simp [getNode_setNode_same, getNode_setNode_other]
  by_cases e9 : name = "rightLowerArm"
  · subst e9; simp [getNode_setNode_same, getNode_setNode_other]
  simp [getNode_setNode_other _ _ _ _ e1, getNode_setNode_other _ _ _ _ e2,
    getNode_setNode_other _ _ _ _ e3, getNode_setNode_other _ _ _ _ e4,
    getNode_setNode_other _ _ _ _ e5, getNode_setNode_other _ _ _ _ e6,
    getNode_setNode_other _ _ _ _ e7, getNode_setNode_other _ _ _ _ e8,
    getNode_setNode_other _ _ _ _ e9, e1, e2, e3, e4, e5, e6, e7, e8, e9]

/-- Pointwise evaluation of the idle-animation body: exactly neck, head
and spine rotations change, every other bone is untouched. -/
theorem getNode_applyIdleAnimationH (sin : ℚ → ℚ) (time : ℚ) (h : Humanoid) (name : String) :
    getNode (applyIdleAnimationH sin time h) name =
      (if name = "neck" then
        (getNode h name).map (setRotX (sin (time * (8/10)) * (2/100) + 2/100))
      else if name = "head" then
        (getNode h name).map (fun b =>
          setRotZ (sin (time * (3/10)) * (5/100)) (setRotY (sin (time * (4/10)) * (1/10)) b))
      else if name = "spine" then
        (getNode h name).map (setRotZ (sin (time * (2/10)) * (2/100)))
      else getNode h name) := by
  simp only [applyIdleAnimationH]
  by_cases e1 : name = "neck"
  · subst e1; simp [getNode_setNode_same, getNode_setNode_other]
  by_cases e2 : name = "head"
  · subst e2; simp [getNode_setNode_same, getNode_setNode_other]
  by_cases e3 : name = "spine"
  · subst e3; simp [getNode_setNode_same, getNode_setNode_other]
  simp [getNode_setNode_other _ _ _ _ e1, getNode_setNode_other _ _ _ _ e2,
    getNode_setNode_other _ _ _ _ e3, e1, e2, e3]

/-- C5: createDesksAndChairs is pure fixed-grid arithmetic: exactly 3
columns by 4 rows of desk/chair groups, at
x = -(columns-1) * spacingX / 2 + col * spacingX and
z = (-D + 3.5) + row * spacingZ with spacingX = 2.5, spacingZ = 1.6;
for D = 10 the x coordinates are {-2.5, 0, 2.5} and the z coordinates
{-6.5, -4.9, -3.3, -1.7}; the positions depend on no other object (the
grid is a function of D and the loop indices alone). -/
theorem C5_desk_grid_thm :
    (∀ D : ℚ, createDesksAndChairs D =
      [(-(5/2), -D + 7/2), (-(5/2), -D + 51/10), (-(5/2), -D + 67/10), (-(5/2), -D + 83/10),
       (0, -D + 7/2), (0, -D + 51/10), (0, -D + 67/10), (0, -D + 83/10),
       (5/2, -D + 7/2), (5/2, -D + 51/10), (5/2, -D + 67/10), (5/2, -D + 83/10)])
    ∧ createDesksAndChairs 10 =
      [(-(5/2), -(13/2)), (-(5/2), -(49/10)), (-(5/2), -(33/10)), (-(5/2), -(17/10)),
       (0, -(13/2)), (0, -(49/10)), (0, -(33/10)), (0, -(17/10)),
       (5/2, -(13/2)), (5/2, -(49/10)), (5/2, -(33/10)), (5/2, -(17/10))] := by
  have hgen : ∀ D : ℚ, createDesksAndChairs D =
      [(-(5/2), -D + 7/2), (-(5/2), -D + 51/10), (-(5/2), -D + 67/10), (-(5/2), -D + 83/10),
       (0, -D + 7/2), (0, -D + 51/10), (0, -D + 67/10), (0, -D + 83/10),
       (5/2, -D + 7/2), (5/2, -D + 51/10), (5/2, -D + 67/10), (5/2, -D + 83/10)] := by
    intro D
    simp [createDesksAndChairs, List.range_succ]
    norm_num
    exact ⟨by ring, by ring, by ring, by ring, by ring, by ring, by ring, by ring, by ring⟩
  refine ⟨hgen, ?_⟩
  rw [hgen 10]
  norm_num

/-- C6: the composer's pass list is exactly [RenderPass, SAOPass,
UnrealBloomPass, SMAAPass, OutputPass] in that order, with the primary
RenderPass first and the OutputPass last. -/
theorem C6_composer_pass_order_thm :
    composer.passes =
      [PassKind.renderPass, PassKind.saoPass, PassKind.bloomPass,
       PassKind.smaaPass, PassKind.outputPass]
    ∧ composer.passes.head? = some PassKind.renderPass
    ∧ composer.passes.getLast? = some PassKind.outputPass := by
  decide

/-- Sample hips bone with a nonzero rotation and position.y = 1, used
to exercise the sitting pose on a concrete avatar. -/
def hipsBone : Bone := { rotation := ⟨1/10, 1/5, 3/10⟩, position := ⟨0, 1, 0⟩ }

/-- Sample VRM 0.x avatar whose humanoid has only a hips bone. -/
def vHips : VRM :=
  { metaVersion := some "0", humanoid := some [("hips", hipsBone)],
    sceneId := 1, scenePos := ⟨0, 0, 0⟩, sceneRotY := 0 }

/-- C1 counterexample: the claim states that setSittingPose applies a
per-convention sign multiplier to the local rotation of the hips bone.
On a concrete VRM 0.x avatar whose hips bone has rotation
(0.1, 0.2, 0.3) and position.y = 1, setSittingPose leaves the hips
local rotation exactly as it was (no sign-multiplied rotation is
applied to hips at all) while it does modify the hips bone, resetting
its position.y to 0 unconditionally. -/
theorem C1_hips_rotation_counterexample :
    (boneOf (setSittingPose (some vHips) (6/5)) "hips").map Bone.rotation
      = some ⟨1/10, 1/5, 3/10⟩
    ∧ (boneOf (some vHips) "hips").map Bone.rotation = some ⟨1/10, 1/5, 3/10⟩
    ∧ (boneOf (setSittingPose (some vHips) (6/5)) "hips").map (fun b => b.position.y)
      = some 0
    ∧ (boneOf (some vHips) "hips").map (fun b => b.position.y) = some 1 := by
  simp [boneOf, setSittingPose, setSittingPoseV, setSittingPoseH, vHips, hipsBone,
    setNode, getNode, setPosY, setRotX, setRotY, setRotZ]

/-- C1 (amended): setBasePose and setSittingPose detect the skeleton
convention solely from the version tag (metaVersion = "0") and apply a
single per-convention sign multiplier (+1 when the tag is "0", -1
otherwise) to the local rotations of a fixed set of named bones
(upper/lower arms for the base pose; upper/lower legs and upper/lower
arms for the sitting pose); the sitting pose additionally resets the
hips position.y to 0 unconditionally (no rotation of hips is touched
and no sign is involved there); every other bone, and every bone
lookup that finds no node, is left untouched, and neither function
changes any non-humanoid field of the avatar. -/
theorem C1_pose_sign_convention_thm :
    ∀ (v : VRM) (h : Humanoid) (a : ℚ) (name : String), v.humanoid = some h →
    ((setBasePoseV v).metaVersion = v.metaVersion
      ∧ (setBasePoseV v).sceneId = v.sceneId
      ∧ (setSittingPoseV v a).metaVersion = v.metaVersion
      ∧ (setSittingPoseV v a).sceneId = v.sceneId)
    ∧ boneOf (some (setBasePoseV v)) name =
      (if name = "leftUpperArm" then
        (getNode h name).map (setRotZ ((if v.metaVersion = some "0" then (1:ℚ) else -1) * (13/10)))
      else if name = "rightUpperArm" then
        (getNode h name).map (setRotZ ((if v.metaVersion = some "0" then (1:ℚ) else -1) * (-(13/10))))
      else if name = "leftLowerArm" then
        (getNode h name).map (setRotZ ((if v.metaVersion = some "0" then (1:ℚ) else -1) * (2/10)))
      else if name = "rightLowerArm" then
        (getNode h name).map (setRotZ ((if v.metaVersion = some "0" then (1:ℚ) else -1) * (-(2/10))))
      else getNode h name)
    ∧ boneOf (some (setSittingPoseV v a)) name =
      (if name = "hips" then (getNode h name).map (setPosY 0)
      else if name = "leftUpperLeg" then
        (getNode h name).map (setRotX ((if v.metaVersion = some "0" then (1:ℚ) else -1) * (5/4)))
      else if name = "rightUpperLeg" then
        (getNode h name).map (setRotX ((if v.metaVersion = some "0" then (1:ℚ) else -1) * (5/4)))
      else if name = "leftLowerLeg" then
        (getNode h name).map (setRotX ((if v.metaVersion = some "0" then (1:ℚ) else -1) * (-(29/20))))
      else if name = "rightLowerLeg" then
        (getNode h name).map (setRotX ((if v.metaVersion = some "0" then (1:ℚ) else -1) * (-(29/20))))
      else if name = "leftUpperArm" then
        (getNode h name).map (fun b =>
          setRotX ((if v.metaVersion = some "0" then (1:ℚ) else -1) * a)
            (setRotZ ((if v.metaVersion = some "0" then (1:ℚ) else -1) * 1) b))
      else if name = "rightUpperArm" then
        (getNode h name).map (fun b =>
          setRotX ((if v.metaVersion = some "0" then (1:ℚ) else -1) * a)
            (setRotZ ((if v.metaVersion = some "0" then (1:ℚ) else -1) * (-1)) b))
      else if name = "leftLowerArm" then
        (getNode h name).map (setRotY ((if v.metaVersion = some "0" then (1:ℚ) else -1) * (-(3/10))))
      else if name = "rightLowerArm" then
        (getNode h name).map (setRotY ((if v.metaVersion = some "0" then (1:ℚ) else -1) * (3/10)))
      else getNode h name) := by
  intro v h a name hv
  refine ⟨⟨?_, ?_, ?_, ?_⟩, ?_, ?_⟩
  · simp [setBasePoseV, hv]
  · simp [setBasePoseV, hv]
  · simp [setSittingPoseV, hv]
  · simp [setSittingPoseV, hv]
  · simp [boneOf, setBasePoseV, hv, getNode_setBasePoseH]
  · simp [boneOf, setSittingPoseV, hv, getNode_setSittingPoseH]

/-- Witness for C1: the amended theorem applied to the concrete avatar
vHips at the hips bone, with the resulting hips node evaluated: its
rotation is untouched and its position.y is 0. -/
theorem C1_pose_sign_convention_witness :
    boneOf (some (setSittingPoseV vHips (6/5))) "hips"
      = some { rotation := ⟨1/10, 1/5, 3/10⟩, position := ⟨0, 0, 0⟩ } := by
  have hc := (C1_pose_sign_convention_thm vHips [("hips", hipsBone)] (6/5) "hips" rfl).2.2
  rw [hc]
  simp [getNode, hipsBone, setPosY]

/-- C10: the pose and animation functions are total: a null vrm or a
vrm without a humanoid is returned unchanged by setBasePose,
setSittingPose and applyIdleAnimation, and a bone lookup that returns
no node is skipped (the bone map is unchanged) rather than
dereferenced. -/
theorem C10_totality_thm :
    (∀ (a t : ℚ) (sin : ℚ → ℚ),
      setBasePose none = none ∧ setSittingPose none a = none
        ∧ applyIdleAnimation sin none t = none)
    ∧ (∀ (v : VRM) (a t : ℚ) (sin : ℚ → ℚ), v.humanoid = none →
      setBasePose (some v) = some v ∧ setSittingPose (some v) a = some v
        ∧ applyIdleAnimation sin (some v) t = some v)
    ∧ (∀ (h : Humanoid) (n : String) (f : Bone → Bone),
      getNode h n = none → setNode h n f = h) := by
  refine ⟨fun a t sin => ⟨rfl, rfl, rfl⟩, fun v a t sin hv => ?_,
    fun h n f habs => setNode_absent h n f habs⟩
  refine ⟨?_, ?_, ?_⟩ <;>
    simp [setBasePose, setBasePoseV, setSittingPose, setSittingPoseV,
      applyIdleAnimation, applyIdleAnimationV, hv]

/-- Humanoid-free sample avatar. -/
def vNoHumanoid : VRM :=
  { metaVersion := none, humanoid := none, sceneId := 0,
    scenePos := ⟨0, 0, 0⟩, sceneRotY := 0 }

/-- Witness for C10: on a concrete avatar with no humanoid, the sitting
pose is the identity, and on a concrete one-bone map a lookup miss
leaves the map unchanged. -/
theorem C10_totality_witness :
    setSittingPose (some vNoHumanoid) (6/5) = some vNoHumanoid
    ∧ setNode [("hips", hipsBone)] "neck" (setRotX 1) = [("hips", hipsBone)] := by
  refine ⟨(C10_totality_thm.2.1 vNoHumanoid (6/5) 0 (fun q => q) rfl).2.1, ?_⟩
  exact C10_totality_thm.2.2 [("hips", hipsBone)] "neck" (setRotX 1) (by simp [getNode])

/-- Lookup at the index of a request just appended to the queue. -/
theorem get?_append_singleton {α : Type} (l : List α) (a : α) :
    (l ++ [a]).get? l.length = some a := by
  induction l with
  | nil => rfl
  | cons x t ih => simp [ih]

/-- Removing the request just appended restores the queue. -/
theorem eraseIdx_append_singleton {α : Type} (l : List α) (a : α) :
    (l ++ [a]).eraseIdx l.length = l := by
  induction l with
  | nil => rfl
  | cons x t ih => simpa [List.eraseIdx] using ih

/-- Sample teacher avatar already loaded in the scene (scene root 1). -/
def teacherAlice : VRM :=
  { metaVersion := some "0", humanoid := some [("hips", hipsBone)],
    sceneId := 1, scenePos := ⟨0, 1/4, -9⟩, sceneRotY := 0 }

/-- World in which teacherAlice is the current teacher and its scene
root is in the scene graph. -/
def w0C2 : World :=
  { sceneIds := [1], teacherVRM := some teacherAlice, studentVRMs := [],
    disposed := [], pending := [], log := [] }

/-- C2 counterexample: the claim states that after a failed load the
scene graph and the teacherVRM reference are the same as when the load
was requested. Concretely: with teacherAlice loaded, requesting a new
teacher model and having the fetch fail leaves teacherVRM cleared and
the old teacher scene removed from the scene graph and disposed,
because loadVRM removes and disposes the existing teacher
synchronously, before issuing the fetch; the failure does not restore
it. -/
theorem C2_failed_load_counterexample :
    (run w0C2 [Ev.request "m2" ⟨0, 1/4, -9⟩ 0 true, Ev.complete 0 none]).teacherVRM = none
    ∧ w0C2.teacherVRM = some teacherAlice
    ∧ (run w0C2 [Ev.request "m2" ⟨0, 1/4, -9⟩ 0 true, Ev.complete 0 none]).sceneIds = []
    ∧ w0C2.sceneIds = [1]
    ∧ (run w0C2 [Ev.request "m2" ⟨0, 1/4, -9⟩ 0 true, Ev.complete 0 none]).disposed = [1]
    ∧ (run w0C2 [Ev.request "m2" ⟨0, 1/4, -9⟩ 0 true, Ev.complete 0 none]).studentVRMs = [] := by
  simp [run, step, loadVRM, loadOnError, w0C2, teacherAlice, List.eraseIdx, List.erase]

/-- C2 (amended): if the asset fetch fails, the error callback only
logs and performs no other state change and no retry: the scene graph,
the teacherVRM reference, the studentVRMs list and the request queue
are the same after the failure as immediately after the fetch was
issued, and the failed request is consumed without a replacement.
However, the state at fetch-issue time already differs from the state
at the loadVRM call for a teacher load with a teacher present (the old
teacher is removed synchronously); whenever the request is a student
load or no teacher is present, the failed load leaves the scene graph,
teacherVRM and studentVRMs exactly as they were when loadVRM was
called. -/
theorem C2_failed_load_thm :
    ∀ (w : World) (url : String) (pos : Vec3) (rotY : ℚ) (t : Bool),
    (step (step w (Ev.request url pos rotY t)) (Ev.complete w.pending.length none)).sceneIds
      = (step w (Ev.request url pos rotY t)).sceneIds
    ∧ (step (step w (Ev.request url pos rotY t)) (Ev.complete w.pending.length none)).teacherVRM
      = (step w (Ev.request url pos rotY t)).teacherVRM
    ∧ (step (step w (Ev.request url pos rotY t)) (Ev.complete w.pending.length none)).studentVRMs
      = (step w (Ev.request url pos rotY t)).studentVRMs
    ∧ (step (step w (Ev.request url pos rotY t)) (Ev.complete w.pending.length none)).disposed
      = (step w (Ev.request url pos rotY t)).disposed
    ∧ (step (step w (Ev.request url pos rotY t)) (Ev.complete w.pending.length none)).pending
      = w.pending
    ∧ (step (step w (Ev.request url pos rotY t)) (Ev.complete w.pending.length none)).log
      = (step w (Ev.request url pos rotY t)).log ++ [LogEv.loadError]
    ∧ ((t = true → w.teacherVRM = none) →
      (step (step w (Ev.request url pos rotY t)) (Ev.complete w.pending.length none)).sceneIds
        = w.sceneIds
      ∧ (step (step w (Ev.request url pos rotY t)) (Ev.complete w.pending.length none)).teacherVRM
        = w.teacherVRM
      ∧ (step (step w (Ev.request url pos rotY t)) (Ev.complete w.pending.length none)).studentVRMs
        = w.studentVRMs
      ∧ (step (step w (Ev.request url pos rotY t)) (Ev.complete w.pending.length none)).disposed
        = w.disposed) := by
  intro w url pos rotY t
  cases t with
  | false =>
    simp [step, loadVRM, loadOnError, get?_append_singleton, eraseIdx_append_singleton]
  | true =>
    cases htv : w.teacherVRM with
    | none =>
      simp [step, loadVRM, loadOnError, get?_append_singleton, eraseIdx_append_singleton, htv]
    | some tv =>
      simp [step, loadVRM, loadOnError, get?_append_singleton, eraseIdx_append_singleton, htv]

/-- Witness for C2: on the concrete world w0C2, a failed student load
leaves the scene graph and the teacher reference exactly as they were
at the loadVRM call. -/
theorem C2_failed_load_witness :
    (step (step w0C2 (Ev.request "u" ⟨0, 0, 0⟩ 0 false))
        (Ev.complete w0C2.pending.length none)).sceneIds = [1]
    ∧ (step (step w0C2 (Ev.request "u" ⟨0, 0, 0⟩ 0 false))
        (Ev.complete w0C2.pending.length none)).teacherVRM = some teacherAlice := by
  have hc := (C2_failed_load_thm w0C2 "u" ⟨0, 0, 0⟩ 0 false).2.2.2.2.2.2
    (fun h => by simp at h)
  exact ⟨by rw [hc.1]; simp [w0C2], by rw [hc.2.1]; simp [w0C2]⟩

/-- Empty initial world: nothing loaded, nothing pending. -/
def w0Empty : World :=
  { sceneIds := [], teacherVRM := none, studentVRMs := [],
    disposed := [], pending := [], log := [] }

/-- Sample teacher avatar delivered by the first fetch (scene root 1). -/
def vrmT1 : VRM :=
  { metaVersion := some "0", humanoid := some [], sceneId := 1,
    scenePos := ⟨0, 0, 0⟩, sceneRotY := 0 }

/-- Sample teacher avatar delivered by the second fetch (scene root 2). -/
def vrmT2 : VRM :=
  { metaVersion := none, humanoid := some [], sceneId := 2,
    scenePos := ⟨0, 0, 0⟩, sceneRotY := 0 }

/-- C9 counterexample: the claim asserts at most one teacher avatar
exists at any time. With two overlapping teacher loads (both issued
while no teacher is present, then both completing), the scene graph
holds the scene roots of both teacher avatars at once: neither load's
synchronous removal fired (teacherVRM was null at both request times),
the first loaded teacher scene (root 1) stays in the scene graph
undisposed, and teacherVRM references only the second (root 2). -/
theorem C9_overlapping_teacher_loads_counterexample :
    (run w0Empty [Ev.request "t1" ⟨0, 0, 0⟩ 0 true, Ev.request "t2" ⟨0, 0, 0⟩ 0 true,
      Ev.complete 0 (some vrmT1), Ev.complete 0 (some vrmT2)]).sceneIds = [1, 2]
    ∧ (run w0Empty [Ev.request "t1" ⟨0, 0, 0⟩ 0 true, Ev.request "t2" ⟨0, 0, 0⟩ 0 true,
      Ev.complete 0 (some vrmT1), Ev.complete 0 (some vrmT2)]).teacherVRM.map VRM.sceneId
      = some 2
    ∧ (run w0Empty [Ev.request "t1" ⟨0, 0, 0⟩ 0 true, Ev.request "t2" ⟨0, 0, 0⟩ 0 true,
      Ev.complete 0 (some vrmT1), Ev.complete 0 (some vrmT2)]).disposed = [] := by
  simp [run, step, loadVRM, loadOnSuccess, vrmWithTransform, setBasePoseV, setBasePoseH,
    setNode, w0Empty, vrmT1, vrmT2, List.eraseIdx]

/-- C9 (amended): the teacherVRM reference holds at most one avatar,
and the removal mechanism is as claimed: every teacher loadVRM call
with a teacher present removes that teacher's scene from the scene
graph, disposes it and clears the reference before issuing the fetch;
a teacher load with no teacher present removes nothing; student loads
never remove or dispose anything and a completed student load only
appends to studentVRMs and to the scene graph. Scene-graph-level
uniqueness of the teacher avatar, however, only holds when teacher
loads do not overlap: the synchronous removal targets only the
currently referenced teacher, so a teacher scene loaded by a still
pending earlier request is never removed. -/
theorem C9_teacher_replacement_thm :
    ∀ (w : World) (url : String) (pos : Vec3) (rotY : ℚ),
    (∀ tv, w.teacherVRM = some tv →
      (loadVRM w url pos rotY true).sceneIds = w.sceneIds.erase tv.sceneId
      ∧ (loadVRM w url pos rotY true).disposed = w.disposed ++ [tv.sceneId]
      ∧ (loadVRM w url pos rotY true).teacherVRM = none
      ∧ (loadVRM w url pos rotY true).pending = w.pending ++ [⟨url, pos, rotY, true⟩]
      ∧ (loadVRM w url pos rotY true).studentVRMs = w.studentVRMs)
    ∧ (w.teacherVRM = none →
      (loadVRM w url pos rotY true).sceneIds = w.sceneIds
      ∧ (loadVRM w url pos rotY true).disposed = w.disposed
      ∧ (loadVRM w url pos rotY true).teacherVRM = none
      ∧ (loadVRM w url pos rotY true).pending = w.pending ++ [⟨url, pos, rotY, true⟩])
    ∧ ((loadVRM w url pos rotY false).sceneIds = w.sceneIds
      ∧ (loadVRM w url pos rotY false).disposed = w.disposed
      ∧ (loadVRM w url pos rotY false).teacherVRM = w.teacherVRM
      ∧ (loadVRM w url pos rotY false).studentVRMs = w.studentVRMs
      ∧ (loadVRM w url pos rotY false).pending = w.pending ++ [⟨url, pos, rotY, false⟩])
    ∧ (∀ (req : LoadReq) (vrm : VRM), req.isTeacher = false →
      (loadOnSuccess w req vrm).studentVRMs
        = w.studentVRMs ++ [setSittingPoseV (vrmWithTransform vrm req)
            (if vrm.metaVersion = some "0" then 6/5 else 13/10)]
      ∧ (loadOnSuccess w req vrm).sceneIds = w.sceneIds ++ [vrm.sceneId]
      ∧ (loadOnSuccess w req vrm).teacherVRM = w.teacherVRM
      ∧ (loadOnSuccess w req vrm).disposed = w.disposed) := by
  intro w url pos rotY
  refine ⟨fun tv htv => ?_, fun htv => ?_, ?_, fun req vrm hreq => ?_⟩
  · simp [loadVRM, htv]
  · simp [loadVRM, htv]
  · simp [loadVRM]
  · have hsid : (setSittingPoseV (vrmWithTransform vrm req)
        (if vrm.metaVersion = some "0" then 6/5 else 13/10)).sceneId = vrm.sceneId := by
      simp [setSittingPoseV, vrmWithTransform]
      cases (vrm.humanoid) <;> simp
    simp [loadOnSuccess, hreq, hsid]

/-- Witness for C9: on the concrete world w0C2, a teacher load removes
teacherAlice's scene root, disposes it and clears the reference. -/
theorem C9_teacher_replacement_witness :
    (loadVRM w0C2 "u" ⟨0, 0, 0⟩ 0 true).teacherVRM = none
    ∧ (loadVRM w0C2 "u" ⟨0, 0, 0⟩ 0 true).disposed = [1]
    ∧ (loadVRM w0C2 "u" ⟨0, 0, 0⟩ 0 true).sceneIds = [] := by
  have hm := (C9_teacher_replacement_thm w0C2 "u" ⟨0, 0, 0⟩ 0).1 teacherAlice rfl
  refine ⟨hm.2.2.1, ?_, ?_⟩
  · rw [hm.2.1]; rfl
  · rw [hm.1]; rfl

/-- One animate invocation schedules exactly one further callback. -/
theorem animateFrame_raf {ι : Type} (u : ι × CamState → ι × CamState) (sqrt sin : ℚ → ℚ)
    (f : Frame ι) (t : ℚ) : (animateFrame u sqrt sin f t).raf = f.raf + 1 := by
  cases htv : f.teacherVRM <;> simp [animateFrame, htv]

/-- One animate invocation maps the teacher through the idle
animation. -/
theorem animateFrame_teacherVRM {ι : Type} (u : ι × CamState → ι × CamState) (sqrt sin : ℚ → ℚ)
    (f : Frame ι) (t : ℚ) :
    (animateFrame u sqrt sin f t).teacherVRM
      = f.teacherVRM.map (fun v => applyIdleAnimationV sin v t) := by
  cases htv : f.teacherVRM <;> simp [animateFrame, htv]

/-- One animate invocation maps every student through the idle
animation. -/
theorem animateFrame_studentVRMs {ι : Type} (u : ι × CamState → ι × CamState) (sqrt sin : ℚ → ℚ)
    (f : Frame ι) (t : ℚ) :
    (animateFrame u sqrt sin f t).studentVRMs
      = f.studentVRMs.map (fun v => applyIdleAnimationV sin v t) := by
  cases htv : f.teacherVRM <;> simp [animateFrame, htv]

/-- The camera/controls output of one animate invocation is the
camera-control logic followed by the final library controls.update,
reading only the controls internals, the camera state and the lock
flag. -/
theorem animateFrame_cam {ι : Type} (u : ι × CamState → ι × CamState) (sqrt sin : ℚ → ℚ)
    (f : Frame ι) (t : ℚ) :
    (animateFrame u sqrt sin f t).cam
      = (u (animateCamera u sqrt f.isLocked (f.ctl, f.cam))).2
    ∧ (animateFrame u sqrt sin f t).ctl
      = (u (animateCamera u sqrt f.isLocked (f.ctl, f.cam))).1 := by
  cases htv : f.teacherVRM <;> simp [animateFrame, htv]

/-- C3: in every animate frame, in the locked and the unlocked branch
alike, the camera-control logic ends with the camera position pinned
back to the fixed seat point fixedCameraPos = (0, 1.2, -4.4), for every
possible behaviour of the library OrbitControls.update call and every
prior camera state, before the frame reaches composer.render();
rotation and zoom act only on the look-at target and the field of view
(in the locked branch the target is reset to (0, 1.15, -10) and the fov
lerped back toward 65). -/
theorem C3_fixed_seat_thm :
    ∀ (ι : Type) (u : ι × CamState → ι × CamState) (sqrt : ℚ → ℚ) (isLocked : Bool)
      (st : ι × CamState),
    (animateCamera u sqrt isLocked st).2.pos = fixedCameraPos
    ∧ (animateCamera u sqrt true st).2.target = ⟨0, 23/20, -10⟩
    ∧ (animateCamera u sqrt true st).2.fov = lerp st.2.fov 65 (1/10) := by
  intro ι u sqrt isLocked st
  refine ⟨?_, ?_, ?_⟩
  · cases isLocked <;> simp [animateCamera]
  · simp [animateCamera]
  · simp [animateCamera]

/-- C7: the pose logic and the per-frame camera logic are
deterministic functions of their stated inputs: two avatars agreeing on
the version tag and the bone map get identical bone maps from
setBasePose and from setSittingPose at the same armAngle, whatever
their other state; and two frames agreeing on the controls internals,
the camera state and the lock flag produce identical camera positions,
fields of view and controls targets, whatever their avatars or
scheduling state. -/
theorem C7_determinism_thm :
    (∀ (v1 v2 : VRM) (a : ℚ), v1.metaVersion = v2.metaVersion → v1.humanoid = v2.humanoid →
      (setBasePoseV v1).humanoid = (setBasePoseV v2).humanoid
      ∧ (setSittingPoseV v1 a).humanoid = (setSittingPoseV v2 a).humanoid)
    ∧ (∀ (ι : Type) (u : ι × CamState → ι × CamState) (sqrt sin : ℚ → ℚ) (t : ℚ)
        (f1 f2 : Frame ι), f1.ctl = f2.ctl → f1.cam = f2.cam → f1.isLocked = f2.isLocked →
      (animateFrame u sqrt sin f1 t).cam = (animateFrame u sqrt sin f2 t).cam
      ∧ (animateFrame u sqrt sin f1 t).ctl = (animateFrame u sqrt sin f2 t).ctl) := by
  constructor
  · intro v1 v2 a hm hh
    constructor <;> simp [setBasePoseV, setSittingPoseV, hm, hh] <;>
      cases v2.humanoid <;> simp [hm, hh]
  · intro ι u sqrt sin t f1 f2 hc hcam hl
    rw [(animateFrame_cam u sqrt sin f1 t).1, (animateFrame_cam u sqrt sin f2 t).1,
      (animateFrame_cam u sqrt sin f1 t).2, (animateFrame_cam u sqrt sin f2 t).2,
      hc, hcam, hl]
    exact ⟨rfl, rfl⟩

/-- Second sample avatar: same version tag and bone map as vHips but a
different scene root, position and rotation. -/
def vHips2 : VRM :=
  { metaVersion := some "0", humanoid := some [("hips", hipsBone)],
    sceneId := 7, scenePos := ⟨1, 0, 2⟩, sceneRotY := 3 }

/-- Locked-view camera state at the initial seat. -/
def cam0 : CamState :=
  { pos := ⟨0, 23/20, -(49/10)⟩, fov := 65, target := ⟨0, 23/20, -10⟩ }

/-- Sample frame with no avatars and no pending callback. -/
def frame0 : Frame Unit :=
  { ctl := (), cam := cam0, isLocked := true, teacherVRM := none,
    studentVRMs := [], raf := 0 }

/-- Sample frame agreeing with frame0 on the camera-relevant state but
holding avatars and a pending callback. -/
def frame1 : Frame Unit :=
  { ctl := (), cam := cam0, isLocked := true, teacherVRM := some vHips,
    studentVRMs := [vHips2], raf := 1 }

/-- Witness for C7: two concrete avatars differing only outside the
version tag and bone map get identical posed bone maps, and two
concrete frames differing only outside the camera state produce the
same camera output. -/
theorem C7_determinism_witness :
    ((setBasePoseV vHips).humanoid = (setBasePoseV vHips2).humanoid
      ∧ (setSittingPoseV vHips 1).humanoid = (setSittingPoseV vHips2 1).humanoid)
    ∧ ((animateFrame (fun st => st) (fun q => q) (fun q => q) frame0 0).cam
        = (animateFrame (fun st => st) (fun q => q) (fun q => q) frame1 0).cam
      ∧ (animateFrame (fun st => st) (fun q => q) (fun q => q) frame0 0).ctl
        = (animateFrame (fun st => st) (fun q => q) (fun q => q) frame1 0).ctl) :=
  ⟨C7_determinism_thm.1 vHips vHips2 1 rfl rfl,
    C7_determinism_thm.2 Unit (fun st => st) (fun q => q) (fun q => q) 0 frame0 frame1
      rfl rfl rfl⟩

/-- C8: each animate invocation schedules exactly one
requestAnimationFrame callback of itself, and starting from the single
direct animate() call of module initialisation (no callback pending
before it), exactly one callback is outstanding after every fired
frame, for every frame count. -/
theorem C8_single_callback_thm :
    ∀ (ι : Type) (u : ι × CamState → ι × CamState) (sqrt sin : ℚ → ℚ)
      (times : Nat → ℚ) (t0 : ℚ) (f0 : Frame ι),
    (∀ (f : Frame ι) (t : ℚ), (animateFrame u sqrt sin f t).raf = f.raf + 1)
    ∧ (f0.raf = 0 → ∀ n,
        (runFrames u sqrt sin times (animateFrame u sqrt sin f0 t0) n).raf = 1) := by
  intro ι u sqrt sin times t0 f0
  refine ⟨fun f t => animateFrame_raf u sqrt sin f t, fun h0 n => ?_⟩
  induction n with
  | zero => simp [runFrames, animateFrame_raf, h0]
  | succ n ih => simp [runFrames, fireFrame, ih, animateFrame_raf]

/-- Witness for C8: from the concrete initial frame frame0 (no pending
callback), after the direct animate() start and three fired frames
exactly one callback is outstanding. -/
theorem C8_single_callback_witness :
    (runFrames (fun st => st) (fun q => q) (fun q => q) (fun _ => 0)
      (animateFrame (fun st => st) (fun q => q) (fun q => q) frame0 0) 3).raf = 1 :=
  (C8_single_callback_thm Unit (fun st => st) (fun q => q) (fun q => q)
    (fun _ => 0) 0 frame0).2 rfl 3

/-- The idle animation touches no bone outside neck, head and spine. -/
theorem applyIdle_other (sin : ℚ → ℚ) (v : VRM) (t : ℚ) (name : String)
    (h1 : name ≠ "neck") (h2 : name ≠ "head") (h3 : name ≠ "spine") :
    boneOf (some (applyIdleAnimationV sin v t)) name = boneOf (some v) name := by
  cases hh : v.humanoid with
  | none => simp [boneOf, applyIdleAnimationV, hh]
  | some h =>
    simp [boneOf, applyIdleAnimationV, hh, getNode_applyIdleAnimationH, h1, h2, h3]

/-- Element lookup commutes with mapping a list. -/
theorem getElem?_map_list {α β : Type} (fn : α → β) (l : List α) (j : Nat) :
    (l.map fn)[j]? = l[j]?.map fn := by
  induction l generalizing j with
  | nil => rfl
  | cons x t ih => cases j <;> simp [ih]

/-- C4: the pose is authored exactly once, in the load callback (the
completion of a pending fetch stores the avatar with setBasePose or
setSittingPose applied once to the freshly delivered model), and the
per-frame idle animation modifies only the neck, head and spine bone
rotations: on every bone other than those three, the teacher and every
student keep, over any number of subsequent frames, exactly the bone
state the load callback set. -/
theorem C4_pose_once_idle_only_thm :
    (∀ (w : World) (i : Nat) (req : LoadReq) (vrm : VRM),
      w.pending.get? i = some req →
      (req.isTeacher = true →
        (step w (Ev.complete i (some vrm))).teacherVRM
          = some (setBasePoseV (vrmWithTransform vrm req)))
      ∧ (req.isTeacher = false →
        (step w (Ev.complete i (some vrm))).studentVRMs
          = w.studentVRMs ++ [setSittingPoseV (vrmWithTransform vrm req)
              (if vrm.metaVersion = some "0" then 6/5 else 13/10)]))
    ∧ (∀ (sin : ℚ → ℚ) (v : VRM) (t : ℚ) (name : String),
      name ≠ "neck" → name ≠ "head" → name ≠ "spine" →
      boneOf (some (applyIdleAnimationV sin v t)) name = boneOf (some v) name)
    ∧ (∀ (ι : Type) (u : ι × CamState → ι × CamState) (sqrt sin : ℚ → ℚ)
        (times : Nat → ℚ) (f : Frame ι) (n : Nat) (name : String),
      name ≠ "neck" → name ≠ "head" → name ≠ "spine" →
      boneOf (runFrames u sqrt sin times f n).teacherVRM name
        = boneOf f.teacherVRM name)
    ∧ (∀ (ι : Type) (u : ι × CamState → ι × CamState) (sqrt sin : ℚ → ℚ)
        (times : Nat → ℚ) (f : Frame ι) (n : Nat) (j : Nat) (name : String),
      name ≠ "neck" → name ≠ "head" → name ≠ "spine" →
      boneOf (runFrames u sqrt sin times f n).studentVRMs[j]? name
        = boneOf f.studentVRMs[j]? name) := by
  refine ⟨?_, ?_, ?_, ?_⟩
  · intro w i req vrm hget
    simp only [List.get?_eq_getElem?] at hget
    constructor <;> intro ht <;> simp [step, hget, loadOnSuccess, ht]
  · exact fun sin v t name h1 h2 h3 => applyIdle_other sin v t name h1 h2 h3
  · intro ι u sqrt sin times f n name h1 h2 h3
    induction n with
    | zero => rfl
    | succ n ih =>
      rw [runFrames]
      by_cases hr : (runFrames u sqrt sin times f n).raf = 0
      · simp [fireFrame, hr, ih]
      · rw [fireFrame, if_neg hr, animateFrame_teacherVRM]
        cases hgt : (runFrames u sqrt sin times f n).teacherVRM with
        | none => rw [hgt] at ih; simpa using ih
        | some tv =>
          rw [hgt] at ih
          simpa [applyIdle_other sin tv (times n) name h1 h2 h3] using ih
  · intro ι u sqrt sin times f n j name h1 h2 h3
    induction n with
    | zero => rfl
    | succ n ih =>
      rw [runFrames]
      by_cases hr : (runFrames u sqrt sin times f n).raf = 0
      · rw [fireFrame, if_pos hr]; exact ih
      · rw [fireFrame, if_neg hr, animateFrame_studentVRMs]
        cases hgj : (runFrames u sqrt sin times f n).studentVRMs[j]? with
        | none =>
          rw [hgj] at ih
          simpa [getElem?_map_list, hgj] using ih
        | some sv =>
          rw [hgj] at ih
          simpa [getElem?_map_list, hgj,
            applyIdle_other sin sv (times n) name h1 h2 h3] using ih

/-- Witness for C4: on the concrete frame frame1 (teacher vHips,
student vHips2, one pending callback), after two fired frames the
teacher's hips bone and the student's hips bone are exactly what they
were before any frame ran. -/
theorem C4_pose_once_idle_only_witness :
    boneOf (runFrames (fun st => st) (fun q => q) (fun q => q) (fun _ => 0)
        frame1 2).teacherVRM "hips"
      = boneOf frame1.teacherVRM "hips"
    ∧ boneOf (runFrames (fun st => st) (fun q => q) (fun q => q) (fun _ => 0)
        frame1 2).studentVRMs[0]? "hips"
      = boneOf frame1.studentVRMs[0]? "hips" :=
  ⟨C4_pose_once_idle_only_thm.2.2.1 Unit (fun st => st) (fun q => q) (fun q => q)
      (fun _ => 0) frame1 2 "hips" (by decide) (by decide) (by decide),
    C4_pose_once_idle_only_thm.2.2.2 Unit (fun st => st) (fun q => q) (fun q => q)
      (fun _ => 0) frame1 2 0 "hips" (by decide) (by decide) (by decide)⟩

end Qiming
